import Mathlib

/-!
Verification of the cart lifecycle and summary-synchronization core of the
coffee-shop front-end (main customer page, `src/app/page.tsx`).

The page is a single React component whose relevant state is:
`cartId` (in-memory cart identity, mirrored in `localStorage` under the key
`cartId`), `summary` (the server-authoritative cart summary), the checkout
fields `email` / `addr` / `zip`, and the three in-flight guards
`togglingId`, `mutatingId`, `paying`.

Each event handler (`onToggleProduct`, `increaseQty`, `decreaseQty`,
`onPay`) is an async function: it checks its guard, issues network
requests, and updates state.  We embed each handler as a pure function
from the page state and a network environment (the responses the backend
would give to the requests of this one call) to the resulting page state
together with the list of requests the call issued, in order.  A call that
is rejected by a guard returns the state unchanged and an empty request
list.  A state in which `togglingId = some p` (resp. `mutatingId = some p`)
represents the window in which a toggle (resp. quantity) operation on
product `p` is outstanding: the source sets the guard before its first
`await` and clears it in a `finally` block.
-/

namespace CoffeeCart

/-- A line of the server cart summary (source type `ItemLine`). -/
structure ItemLine where
  itemId : Nat
  productId : Nat
  name : String
  unitPrice : Int
  qty : Int
  lineTotal : Int
  deriving DecidableEq, Repr

/-- The server cart summary (source type `SummaryRes`). -/
structure SummaryRes where
  items : List ItemLine
  totalAmount : Int
  deriving DecidableEq, Repr

/-- Outcome of one backend call as observed by the client:
`ok` (2xx), `httpErr` (response arrived, `res.ok` false), `netErr`
(the fetch promise rejected). -/
inductive CallResult where
  | ok
  | httpErr
  | netErr
  deriving DecidableEq, Repr

/-- The network requests the page can issue, with the arguments that the
source interpolates into the URL or body. -/
inductive Request where
  | createCart
  | getSummary (cartId : Nat)
  | addItem (cartId productId : Nat)
  | removeItem (cartId productId : Nat)
  | increase (cartId productId : Nat)
  | decrease (cartId productId : Nat)
  | postEmail (cartId : Nat) (body : String)
  | postDate (cartId : Nat)
  | postCustomer (cartId : Nat) (email addr zipc : String)
  deriving DecidableEq, Repr

/-- The state of the main page that the embedded handlers read and write.
`storedCartId` models the `cartId` key of `localStorage`. -/
structure PageState where
  cartId : Option Nat
  storedCartId : Option Nat
  summary : SummaryRes
  email : String
  addr : String
  zip : String
  togglingId : Option Nat
  mutatingId : Option Nat
  paying : Bool
  deriving DecidableEq, Repr

/-- List-of-characters backing of the JavaScript `String.prototype.startsWith`
used by `resolveImage`. -/
def strStarts (s pre : String) : Bool :=
  pre.toList.isPrefixOf s.toList

/-- List-of-characters backing of the JavaScript `String.prototype.trim`
(whitespace stripped from both ends). -/
def strTrim (s : String) : String :=
  ⟨((s.toList.dropWhile Char.isWhitespace).reverse.dropWhile
      Char.isWhitespace).reverse⟩

/-- `resolveImage` from the source: a falsy input — `undefined` or the
empty string — yields `undefined`; a value starting with the literal
`http` or with `/images/` is returned unchanged; anything else gets the
prefix `/images/` prepended. -/
def resolveImage (raw : Option String) : Option String :=
  match raw with
  | none => none
  | some r =>
    if r = "" then none
    else if strStarts r ("http") || strStarts r ("/images/") then some r
    else some (("/images/") ++ r)

/-- A character admitted by the regex class `[^\s@]` of the email check. -/
def emailCharOk (c : Char) : Bool :=
  !c.isWhitespace && !(c == '@')

/-- The email test of `onPay`, the regex `^[^\s@]+@[^\s@]+\.[^\s@]+$`:
exactly one `@`; a nonempty whitespace-free local part before it; after it a
whitespace-free part that splits as `b.c` with `b` and `c` nonempty, which
holds exactly when some `.` occupies an interior position of that part. -/
def emailShape (s : String) : Bool :=
  match s.toList.splitOn '@' with
  | [lpart, dpart] =>
    !lpart.isEmpty && lpart.all emailCharOk && dpart.all emailCharOk &&
      ((dpart.drop 1).dropLast.contains '.')
  | _ => false

/-- The zip test of `onPay`, the regex `^\d{5}$`: exactly five digits. -/
def zipShape (s : String) : Bool :=
  s.toList.length == 5 && s.toList.all (fun c => c.isDigit)

/-- `isInCart` from the source: membership of a product id in the current
summary. -/
def isInCart (summary : SummaryRes) (productId : Nat) : Bool :=
  summary.items.any (fun it => it.productId == productId)

/-- `ensureCartId` from the source.  The environment is the backend answer
to a `POST /carts` creation request: `Except.ok id` for a 2xx envelope
carrying `id`, `Except.error ()` when the response is non-ok or the fetch
rejects (both raise in the source).  Returns the result of the async call,
the new page state, and the requests issued.  With an identity in memory it
returns that identity, touches nothing, and issues no request; otherwise it
issues the creation request and, only on success, stores the new identity
in `localStorage` and in memory. -/
def ensureCartId (st : PageState) (create : Except Unit Nat) :
    Except Unit Nat × PageState × List Request :=
  match st.cartId with
  | some id => (Except.ok id, st, [])
  | none =>
    match create with
    | Except.error _ => (Except.error (), st, [Request.createCart])
    | Except.ok newId =>
      (Except.ok newId,
       { st with cartId := some newId, storedCartId := some newId },
       [Request.createCart])

/-- `fetchSummary` from the source: always issues the cache-busted summary
GET; on a 2xx response (`some s`) the summary is replaced wholesale by the
response body, on a non-ok response or a network error (`none`) the
previous summary is left in place. -/
def fetchSummary (st : PageState) (id : Nat) (res : Option SummaryRes) :
    PageState × List Request :=
  match res with
  | some s => ({ st with summary := s }, [Request.getSummary id])
  | none => (st, [Request.getSummary id])

/-- Backend behaviour seen by one `onToggleProduct` call. -/
structure ToggleEnv where
  create : Except Unit Nat
  confirm : Bool
  addItemRes : CallResult
  removeRes : CallResult
  summaryRes : Option SummaryRes
  deriving Repr

/-- `onToggleProduct` from the source.  Rejected immediately when any
toggle is outstanding (`togglingId` not null).  Checked path: ensure a cart
identity (lazy creation; a failure there is caught and ends the call), POST
an add-item request only when the product is not already a member, abort
before the summary refresh when that POST is non-ok, otherwise refresh the
summary.  Unchecked path: silently return when no identity exists or the
product is not a member; ask for confirmation; DELETE the item; abort
before the refresh on a non-ok response, otherwise refresh.  The
`finally` block restores `togglingId`, so a completed call leaves it as it
found it. -/
def onToggleProduct (st : PageState) (productId : Nat) (nextChecked : Bool)
    (env : ToggleEnv) : PageState × List Request :=
  match st.togglingId with
  | some _ => (st, [])
  | none =>
    if nextChecked then
      match ensureCartId st env.create with
      | (Except.error _, st1, reqs) => (st1, reqs)
      | (Except.ok id, st1, reqs) =>
        if !isInCart st1.summary productId then
          match env.addItemRes with
          | CallResult.ok =>
            let (st2, r2) := fetchSummary st1 id env.summaryRes
            (st2, reqs ++ [Request.addItem id productId] ++ r2)
          | _ => (st1, reqs ++ [Request.addItem id productId])
        else
          let (st2, r2) := fetchSummary st1 id env.summaryRes
          (st2, reqs ++ r2)
    else
      match st.cartId with
      | none => (st, [])
      | some id =>
        if !isInCart st.summary productId then (st, [])
        else if !env.confirm then (st, [])
        else
          match env.removeRes with
          | CallResult.ok =>
            let (st2, r2) := fetchSummary st id env.summaryRes
            (st2, [Request.removeItem id productId] ++ r2)
          | _ => (st, [Request.removeItem id productId])

/-- Backend behaviour seen by one quantity call. -/
structure QtyEnv where
  res : CallResult
  summaryRes : Option SummaryRes
  deriving DecidableEq, Repr

/-- `increaseQty` from the source: silently rejected when no cart identity
exists or any quantity mutation is outstanding (`mutatingId` not null);
otherwise POST the increase, abort before the refresh on a non-ok
response, otherwise refresh the summary. -/
def increaseQty (st : PageState) (productId : Nat) (env : QtyEnv) :
    PageState × List Request :=
  match st.cartId with
  | none => (st, [])
  | some id =>
    match st.mutatingId with
    | some _ => (st, [])
    | none =>
      match env.res with
      | CallResult.ok =>
        let (st2, r2) := fetchSummary st id env.summaryRes
        (st2, [Request.increase id productId] ++ r2)
      | _ => (st, [Request.increase id productId])

/-- `decreaseQty` from the source; identical to `increaseQty` except for
the endpoint. -/
def decreaseQty (st : PageState) (productId : Nat) (env : QtyEnv) :
    PageState × List Request :=
  match st.cartId with
  | none => (st, [])
  | some id =>
    match st.mutatingId with
    | some _ => (st, [])
    | none =>
      match env.res with
      | CallResult.ok =>
        let (st2, r2) := fetchSummary st id env.summaryRes
        (st2, [Request.decrease id productId] ++ r2)
      | _ => (st, [Request.decrease id productId])

/-- `resetAfterPay` from the source: drop the `localStorage` key and the
in-memory identity, blank the summary and the three checkout fields. -/
def resetAfterPay (st : PageState) : PageState :=
  { st with
    storedCartId := none
    cartId := none
    summary := { items := [], totalAmount := 0 }
    email := ""
    addr := ""
    zip := "" }

/-- How one `onPay` call ends, mirroring the distinct alerts of the
source. -/
inductive PayOutcome where
  | alreadyPaying
  | emptyCart
  | badEmail
  | badAddr
  | badZip
  | cartCreateFailed
  | customerFailed
  | flowError
  | success
  deriving DecidableEq, Repr

/-- Backend behaviour seen by one `onPay` call.  The email and date calls
are issued but their results are only logged, so they do not influence the
flow; the customer call decides it. -/
structure PayEnv where
  create : Except Unit Nat
  emailRes : CallResult
  dateRes : CallResult
  customerRes : CallResult
  deriving Repr

/-- `onPay` from the source.  Rejected while a submission is outstanding.
Validations, in order and each short-circuiting with its own alert before
any network activity: summary non-empty, trimmed email matches the email
regex, trimmed address non-empty, trimmed zip is five digits.  Then
`ensureCartId` (lazy creation; failure alerts and aborts).  Then, with
`paying` held: the email POST and the date POST, whose failures are
tolerated; then the customer POST — a non-ok response alerts and aborts,
a network error is caught by the outer handler and alerts, and only a 2xx
response leads to `resetAfterPay`.  The `finally` block clears `paying`. -/
def onPay (st : PageState) (env : PayEnv) :
    PageState × List Request × PayOutcome :=
  if st.paying then (st, [], PayOutcome.alreadyPaying)
  else if st.summary.items.length == 0 then (st, [], PayOutcome.emptyCart)
  else
    let e := strTrim st.email
    let a := strTrim st.addr
    let z := strTrim st.zip
    if !emailShape e then (st, [], PayOutcome.badEmail)
    else if a.isEmpty then (st, [], PayOutcome.badAddr)
    else if !zipShape z then (st, [], PayOutcome.badZip)
    else
      match ensureCartId st env.create with
      | (Except.error _, st1, reqs) => (st1, reqs, PayOutcome.cartCreateFailed)
      | (Except.ok id, st1, reqs) =>
        let reqs1 := reqs ++ [Request.postEmail id e, Request.postDate id]
        match env.customerRes with
        | CallResult.ok =>
          (resetAfterPay st1,
           reqs1 ++ [Request.postCustomer id e a z], PayOutcome.success)
        | CallResult.httpErr =>
          (st1, reqs1 ++ [Request.postCustomer id e a z],
           PayOutcome.customerFailed)
        | CallResult.netErr =>
          (st1, reqs1 ++ [Request.postCustomer id e a z],
           PayOutcome.flowError)

/-- Number of add-item requests in a request list. -/
def addRequestCount (reqs : List Request) : Nat :=
  (reqs.filter fun r =>
    match r with
    | Request.addItem _ _ => true
    | _ => false).length

/-- Whether a request list contains a summary fetch. -/
def hasSummaryFetch (reqs : List Request) : Bool :=
  reqs.any fun r =>
    match r with
    | Request.getSummary _ => true
    | _ => false

/-- Helper for `startsWithScheme`: consume alphanumeric, plus, minus or
dot characters until a colon is found. -/
def schemeTail : List Char → Bool
  | [] => false
  | c :: rest =>
    if c == ':' then true
    else if c.isAlphanum || c == '+' || c == '-' || c == '.' then
      schemeTail rest
    else false

/-- Reading of the phrase `starting with a scheme` in the claim about
`resolveImage`, following the URI grammar: an alphabetic character
followed by alphanumeric, plus, minus or dot characters up to a colon. -/
def startsWithScheme (s : String) : Bool :=
  match s.toList with
  | [] => false
  | c :: rest => c.isAlpha && schemeTail rest

/-- A concrete summary line, used by the concrete witness instances. -/
def sampleLine : ItemLine :=
  { itemId := 1, productId := 1, name := "Americano", unitPrice := 3000,
    qty := 2, lineTotal := 6000 }

/-- A concrete one-line summary containing product 1 only. -/
def sampleSummary : SummaryRes :=
  { items := [sampleLine], totalAmount := 6000 }

/-- A concrete idle page state holding cart 7, whose summary contains
product 1 only and whose checkout fields are filled in validly. -/
def sampleState : PageState :=
  { cartId := some 7, storedCartId := some 7, summary := sampleSummary,
    email := "user@example.com", addr := "Seoul", zip := "12345",
    togglingId := none, mutatingId := none, paying := false }

/-- A concrete page state holding no cart identity and an empty summary. -/
def noCartState : PageState :=
  { sampleState with
    cartId := none
    storedCartId := none
    summary := { items := [], totalAmount := 0 } }

/-- A backend that accepts every request and answers summary fetches with
an empty cart. -/
def happyToggleEnv : ToggleEnv :=
  { create := Except.ok 7, confirm := true, addItemRes := CallResult.ok,
    removeRes := CallResult.ok,
    summaryRes := some { items := [], totalAmount := 0 } }

/-- Claim C4: while a cart identity is held in memory, `ensureCartId`
returns it unchanged, touches no state, and issues zero creation requests;
an immediately repeated call in the resulting state again returns it
unchanged and issues zero requests. -/
theorem ensureCartId_idempotent (st : PageState) (c c2 : Except Unit Nat)
    (id : Nat) (h : st.cartId = some id) :
    ensureCartId st c = (Except.ok id, st, []) ∧
    ensureCartId (ensureCartId st c).2.1 c2 = (Except.ok id, st, []) := by
  simp [ensureCartId, h]

/-- Concrete instance of the C4 theorem: cart 7 is held, the backend would
even refuse a creation, and both calls return cart 7 with no requests. -/
theorem ensureCartId_idempotent_witness :
    ensureCartId sampleState (Except.error ()) =
      (Except.ok 7, sampleState, []) ∧
    ensureCartId (ensureCartId sampleState (Except.error ())).2.1
        (Except.ok 99) = (Except.ok 7, sampleState, []) :=
  ensureCartId_idempotent sampleState (Except.error ()) (Except.ok 99) 7 rfl

/-- Claim C9: when no identity is held and the creation request fails
(non-ok response or network error, both of which raise in the source),
`ensureCartId` fails with an error, issues only the creation request, and
returns the page state unchanged — in particular no identity is written to
memory or to local storage. -/
theorem ensureCartId_failure_unchanged (st : PageState)
    (h : st.cartId = none) :
    ensureCartId st (Except.error ()) =
      (Except.error (), st, [Request.createCart]) := by
  simp [ensureCartId, h]

/-- Concrete instance of the C9 theorem at the cartless state. -/
theorem ensureCartId_failure_unchanged_witness :
    ensureCartId noCartState (Except.error ()) =
      (Except.error (), noCartState, [Request.createCart]) :=
  ensureCartId_failure_unchanged noCartState rfl

/-- Claim C7: the unchecked toggle (`toggleRemove`) is a no-op — no DELETE
request, no summary refresh, no state change — whenever the product is not
a member of the current summary, and likewise whenever no cart identity
exists. -/
theorem toggleRemove_noop (st : PageState) (env : ToggleEnv) (p : Nat) :
    (isInCart st.summary p = false →
      onToggleProduct st p false env = (st, [])) ∧
    (st.cartId = none → onToggleProduct st p false env = (st, [])) := by
  constructor
  · intro h
    cases hg : st.togglingId with
    | some q => simp [onToggleProduct, hg]
    | none =>
      cases hc : st.cartId with
      | none => simp [onToggleProduct, hg, hc]
      | some id => simp [onToggleProduct, hg, hc, h]
  · intro h
    cases hg : st.togglingId with
    | some q => simp [onToggleProduct, hg]
    | none => simp [onToggleProduct, hg, h]

/-- Concrete instance of the C7 theorem: product 2 is not in the sample
summary and the unchecked toggle on it does nothing; in the cartless state
the unchecked toggle on product 1 does nothing either. -/
theorem toggleRemove_noop_witness :
    onToggleProduct sampleState 2 false happyToggleEnv = (sampleState, []) ∧
    onToggleProduct noCartState 1 false happyToggleEnv = (noCartState, []) :=
  ⟨(toggleRemove_noop sampleState happyToggleEnv 2).1 (by decide),
   (toggleRemove_noop noCartState happyToggleEnv 1).2 rfl⟩

/-- Claim C8 counterexample: the claim says that any value starting with
neither a scheme nor the prefix `/images/` is rewritten by prepending
`/images/`.  The bare filename `httpx.png` starts with no scheme (it has
no colon) and not with `/images/`, yet `resolveImage` passes it through
unchanged, because the source tests the literal prefix `http`, not a
scheme. -/
theorem resolveImage_counterexample :
    ¬ (∀ s : String,
        startsWithScheme s = false → strStarts s ("/images/") = false →
        resolveImage (some s) = some (("/images/") ++ s)) := by
  intro hclaim
  exact absurd (hclaim ("httpx.png") (by decide) (by decide)) (by decide)

/-- Claim C8 amended: a falsy input — absent or the empty string — yields
an absent result; a value starting with the literal prefix `http` (which
covers http and https URLs) or with the static-asset prefix `/images/`
passes through unchanged; and any other non-empty value is rewritten by
prepending the fixed prefix `/images/`. -/
theorem resolveImage_normalizes (s : String) :
    (strStarts s ("http") = true ∨ strStarts s ("/images/") = true →
      resolveImage (some s) = some s) ∧
    (s ≠ "" → strStarts s ("http") = false →
      strStarts s ("/images/") = false →
      resolveImage (some s) = some (("/images/") ++ s)) ∧
    resolveImage (some ("")) = none ∧
    resolveImage none = none := by
  refine ⟨fun h => ?_, fun hs h1 h2 => ?_, by decide, rfl⟩
  · have hs : ¬s = "" := by
      rintro rfl
      rcases h with h | h <;> exact absurd h (by decide)
    rcases h with h | h <;> simp [resolveImage, hs, h]
  · simp [resolveImage, hs, h1, h2]

/-- Concrete instance of the amended C8 theorem: an http URL and an
`/images/` path pass through, a bare filename gains the prefix, and the
empty string yields no image. -/
theorem resolveImage_normalizes_witness :
    resolveImage (some ("http://cdn/a.png")) = some ("http://cdn/a.png") ∧
    resolveImage (some ("/images/a.png")) = some ("/images/a.png") ∧
    resolveImage (some ("beans.png")) = some (("/images/") ++ "beans.png") ∧
    resolveImage (some ("")) = none :=
  ⟨(resolveImage_normalizes ("http://cdn/a.png")).1 (Or.inl (by decide)),
   (resolveImage_normalizes ("/images/a.png")).1 (Or.inr (by decide)),
   (resolveImage_normalizes ("beans.png")).2.1 (by decide) (by decide)
     (by decide),
   (resolveImage_normalizes ("x")).2.2.1⟩

/-- Claim C1 counterexample: the claim says mutation operations on
different products may be in flight concurrently.  Formalized for the
toggle operation: while a toggle is outstanding on product `p`, a toggle
on a different product `q` whose own preconditions all hold (cart present,
`q` not a member) issues its request.  This is false: with a toggle
outstanding on product 1, a toggle on product 2 is rejected by the guard
and issues no request, because the source guard tests `togglingId`
against null, not against the target product. -/
theorem single_flight_counterexample :
    ¬ (∀ (st : PageState) (env : ToggleEnv) (p q : Nat),
        st.togglingId = some p → p ≠ q → st.cartId ≠ none →
        isInCart st.summary q = false →
        (onToggleProduct st q true env).2 ≠ []) := by
  intro hclaim
  exact hclaim { sampleState with togglingId := some 1 } happyToggleEnv 1 2
    rfl (by decide) (by decide) (by decide) (by decide)

/-- Claim C1 amended: the mutation operations are single-flight per KIND,
globally across all products — a second toggle on any product (the same
or a different one) is rejected, with no request issued and no state
change, while any toggle is outstanding, and likewise a second quantity
operation while any quantity operation is outstanding. -/
theorem mutation_single_flight_per_kind (st : PageState) (env : ToggleEnv)
    (qenv : QtyEnv) (p q : Nat) (b : Bool) :
    (st.togglingId = some p → onToggleProduct st q b env = (st, [])) ∧
    (st.mutatingId = some p →
      increaseQty st q qenv = (st, []) ∧ decreaseQty st q qenv = (st, [])) := by
  constructor
  · intro h
    simp [onToggleProduct, h]
  · intro h
    cases hc : st.cartId with
    | none => simp [increaseQty, decreaseQty, hc]
    | some id => simp [increaseQty, decreaseQty, hc, h]

/-- Concrete instance of the amended C1 theorem: with a toggle outstanding
on product 1 a toggle on product 2 does nothing, and with a quantity
operation outstanding on product 1 an increase and a decrease on product 1
do nothing. -/
theorem mutation_single_flight_witness :
    onToggleProduct { sampleState with togglingId := some 1 } 2 true
        happyToggleEnv = ({ sampleState with togglingId := some 1 }, []) ∧
    increaseQty { sampleState with mutatingId := some 1 } 1
        { res := CallResult.ok, summaryRes := none } =
      ({ sampleState with mutatingId := some 1 }, []) ∧
    decreaseQty { sampleState with mutatingId := some 1 } 1
        { res := CallResult.ok, summaryRes := none } =
      ({ sampleState with mutatingId := some 1 }, []) :=
  ⟨(mutation_single_flight_per_kind { sampleState with togglingId := some 1 }
      happyToggleEnv { res := CallResult.ok, summaryRes := none } 1 2 true).1
      rfl,
   (mutation_single_flight_per_kind { sampleState with mutatingId := some 1 }
      happyToggleEnv { res := CallResult.ok, summaryRes := none } 1 1 true).2
      rfl |>.1,
   (mutation_single_flight_per_kind { sampleState with mutatingId := some 1 }
      happyToggleEnv { res := CallResult.ok, summaryRes := none } 1 1 true).2
      rfl |>.2⟩

/-- Claim C10: the toggle guard and the quantity guard are independent of
each other.  While a toggle on product `p` is outstanding, a quantity
operation on the same `p` is not rejected — it issues its request — and
while a quantity operation on `p` is outstanding, a toggle on `p` is not
rejected; mutual exclusion holds among operations of the same kind. -/
theorem guards_independent (st : PageState) (env : ToggleEnv)
    (qenv : QtyEnv) (p id : Nat) :
    (st.cartId = some id → st.mutatingId = none → st.togglingId = some p →
      (increaseQty st p qenv).2.head? = some (Request.increase id p) ∧
      (decreaseQty st p qenv).2.head? = some (Request.decrease id p)) ∧
    (st.togglingId = none → st.mutatingId = some p → st.cartId = some id →
      isInCart st.summary p = false →
      (onToggleProduct st p true env).2.head? =
        some (Request.addItem id p)) ∧
    (st.togglingId = some p → onToggleProduct st p true env = (st, [])) ∧
    (st.mutatingId = some p →
      increaseQty st p qenv = (st, []) ∧ decreaseQty st p qenv = (st, [])) := by
  refine ⟨fun hc hm _ => ?_, fun ht _ hc hmem => ?_, fun h => ?_, fun h => ?_⟩
  · cases hr : qenv.res <;>
      cases hs : qenv.summaryRes <;>
        simp [increaseQty, decreaseQty, fetchSummary, hc, hm, hr, hs]
  · cases ha : env.addItemRes <;>
      cases hs : env.summaryRes <;>
        simp [onToggleProduct, ensureCartId, fetchSummary, ht, hc, hmem,
          ha, hs]
  · simp [onToggleProduct, h]
  · cases hc : st.cartId with
    | none => simp [increaseQty, decreaseQty, hc]
    | some id2 => simp [increaseQty, decreaseQty, hc, h]

/-- Concrete instance of the C10 theorem: with a toggle outstanding on
product 1, an increase on product 1 still issues its request; with a
quantity operation outstanding on product 2, a toggle adding product 2
still issues its request. -/
theorem guards_independent_witness :
    (increaseQty { sampleState with togglingId := some 1 } 1
        { res := CallResult.ok, summaryRes := none }).2.head? =
      some (Request.increase 7 1) ∧
    (onToggleProduct { sampleState with mutatingId := some 2 } 2 true
        happyToggleEnv).2.head? = some (Request.addItem 7 2) :=
  ⟨((guards_independent { sampleState with togglingId := some 1 }
      happyToggleEnv { res := CallResult.ok, summaryRes := none } 1 7).1
      rfl rfl rfl).1,
   (guards_independent { sampleState with mutatingId := some 2 }
      happyToggleEnv { res := CallResult.ok, summaryRes := none } 2 7).2.1
      rfl rfl rfl (by decide)⟩

/-- Splitting a request list splits its add-item request count. -/
theorem addRequestCount_append (a b : List Request) :
    addRequestCount (a ++ b) = addRequestCount a + addRequestCount b := by
  simp [addRequestCount, List.filter_append]

/-- A single toggle call issues at most one add-item request, whatever the
state, the target and the backend behaviour. -/
theorem addRequestCount_le_one (st : PageState) (p : Nat) (b : Bool)
    (env : ToggleEnv) :
    addRequestCount (onToggleProduct st p b env).2 ≤ 1 := by
  cases hg : st.togglingId with
  | some q => simp [onToggleProduct, hg, addRequestCount]
  | none =>
    cases b with
    | true =>
      cases hc : st.cartId with
      | some id =>
        cases hm : isInCart st.summary p <;>
          cases ha : env.addItemRes <;>
            cases hs : env.summaryRes <;>
              simp [onToggleProduct, ensureCartId, fetchSummary,
                addRequestCount, hg, hc, hm, ha, hs]
      | none =>
        cases hcr : env.create with
        | error e =>
          simp [onToggleProduct, ensureCartId, addRequestCount, hg, hc, hcr]
        | ok newId =>
          cases hm : isInCart st.summary p <;>
            cases ha : env.addItemRes <;>
              cases hs : env.summaryRes <;>
                simp [onToggleProduct, ensureCartId, fetchSummary,
                  addRequestCount, hg, hc, hcr, hm, ha, hs]
    | false =>
      cases hc : st.cartId with
      | none => simp [onToggleProduct, hg, hc, addRequestCount]
      | some id =>
        cases hm : isInCart st.summary p <;>
          cases hcf : env.confirm <;>
            cases hrm : env.removeRes <;>
              cases hs : env.summaryRes <;>
                simp [onToggleProduct, fetchSummary, addRequestCount,
                  hg, hc, hm, hcf, hrm, hs]

/-- Claim C3: for a product that is already a member of the current
summary, the checked toggle (`toggleAdd`) issues no add-item request, and
two successive checked toggles starting from such a state issue at most
one add-item request in total. -/
theorem toggleAdd_member_idempotent (st : PageState) (env1 env2 : ToggleEnv)
    (p id : Nat) (hg : st.togglingId = none) (hc : st.cartId = some id)
    (hm : isInCart st.summary p = true) :
    addRequestCount (onToggleProduct st p true env1).2 = 0 ∧
    addRequestCount ((onToggleProduct st p true env1).2 ++
        (onToggleProduct (onToggleProduct st p true env1).1 p true env2).2)
      ≤ 1 := by
  have h1 : addRequestCount (onToggleProduct st p true env1).2 = 0 := by
    cases hs : env1.summaryRes <;>
      simp [onToggleProduct, ensureCartId, fetchSummary, addRequestCount,
        hg, hc, hm, hs]
  refine ⟨h1, ?_⟩
  rw [addRequestCount_append, h1]
  simpa using
    addRequestCount_le_one (onToggleProduct st p true env1).1 p true env2

/-- Concrete instance of the C3 theorem: product 1 is in the sample
summary; two successive checked toggles on it issue at most one add-item
request. -/
theorem toggleAdd_member_idempotent_witness :
    addRequestCount (onToggleProduct sampleState 1 true happyToggleEnv).2
      = 0 ∧
    addRequestCount ((onToggleProduct sampleState 1 true happyToggleEnv).2 ++
        (onToggleProduct (onToggleProduct sampleState 1 true
          happyToggleEnv).1 1 true happyToggleEnv).2) ≤ 1 :=
  toggleAdd_member_idempotent sampleState happyToggleEnv happyToggleEnv 1 7
    rfl rfl (by decide)

/-- Claim C5: each of the four mutation operations, when its mutation
request comes back with a non-ok status, aborts before the summary
refresh — no summary fetch is issued and the displayed summary (indeed
the whole state) is unchanged — and, when it succeeds, refreshes the
summary, whose response replaces the displayed summary wholesale. -/
theorem mutation_refresh_discipline (st : PageState) (tEnv : ToggleEnv)
    (qEnv : QtyEnv) (p id : Nat) (s : SummaryRes)
    (hg : st.togglingId = none) (hm : st.mutatingId = none)
    (hc : st.cartId = some id) :
    (qEnv.res = CallResult.httpErr →
      increaseQty st p qEnv = (st, [Request.increase id p]) ∧
      hasSummaryFetch (increaseQty st p qEnv).2 = false) ∧
    (qEnv.res = CallResult.ok → qEnv.summaryRes = some s →
      increaseQty st p qEnv =
        ({ st with summary := s },
         [Request.increase id p, Request.getSummary id])) ∧
    (qEnv.res = CallResult.httpErr →
      decreaseQty st p qEnv = (st, [Request.decrease id p]) ∧
      hasSummaryFetch (decreaseQty st p qEnv).2 = false) ∧
    (qEnv.res = CallResult.ok → qEnv.summaryRes = some s →
      decreaseQty st p qEnv =
        ({ st with summary := s },
         [Request.decrease id p, Request.getSummary id])) ∧
    (isInCart st.summary p = false → tEnv.addItemRes = CallResult.httpErr →
      onToggleProduct st p true tEnv = (st, [Request.addItem id p]) ∧
      hasSummaryFetch (onToggleProduct st p true tEnv).2 = false) ∧
    (isInCart st.summary p = false → tEnv.addItemRes = CallResult.ok →
      tEnv.summaryRes = some s →
      onToggleProduct st p true tEnv =
        ({ st with summary := s },
         [Request.addItem id p, Request.getSummary id])) ∧
    (isInCart st.summary p = true → tEnv.confirm = true →
      tEnv.removeRes = CallResult.httpErr →
      onToggleProduct st p false tEnv = (st, [Request.removeItem id p]) ∧
      hasSummaryFetch (onToggleProduct st p false tEnv).2 = false) ∧
    (isInCart st.summary p = true → tEnv.confirm = true →
      tEnv.removeRes = CallResult.ok → tEnv.summaryRes = some s →
      onToggleProduct st p false tEnv =
        ({ st with summary := s },
         [Request.removeItem id p, Request.getSummary id])) := by
  refine ⟨fun h => ?_, fun h h2 => ?_, fun h => ?_, fun h h2 => ?_,
    fun hmem h => ?_, fun hmem h h2 => ?_, fun hmem hcf h => ?_,
    fun hmem hcf h h2 => ?_⟩
  · have e : increaseQty st p qEnv = (st, [Request.increase id p]) := by
      simp [increaseQty, hc, hm, h]
    exact ⟨e, by rw [e]; rfl⟩
  · simp [increaseQty, fetchSummary, hc, hm, h, h2]
  · have e : decreaseQty st p qEnv = (st, [Request.decrease id p]) := by
      simp [decreaseQty, hc, hm, h]
    exact ⟨e, by rw [e]; rfl⟩
  · simp [decreaseQty, fetchSummary, hc, hm, h, h2]
  · have e : onToggleProduct st p true tEnv = (st, [Request.addItem id p]) := by
      simp [onToggleProduct, ensureCartId, hg, hc, hmem, h]
    exact ⟨e, by rw [e]; rfl⟩
  · simp [onToggleProduct, ensureCartId, fetchSummary, hg, hc, hmem, h, h2]
  · have e : onToggleProduct st p false tEnv =
        (st, [Request.removeItem id p]) := by
      simp [onToggleProduct, hg, hc, hmem, hcf, h]
    exact ⟨e, by rw [e]; rfl⟩
  · simp [onToggleProduct, fetchSummary, hg, hc, hmem, hcf, h, h2]

/-- Concrete instances of the C5 theorem: a failing increase on product 1
leaves the sample state and summary untouched with no summary fetch, and
a successful removal of product 1 refreshes the summary, which is
replaced wholesale by the server response (an empty cart). -/
theorem mutation_refresh_discipline_witness :
    (increaseQty sampleState 1
        { res := CallResult.httpErr, summaryRes := none } =
      (sampleState, [Request.increase 7 1]) ∧
     hasSummaryFetch (increaseQty sampleState 1
        { res := CallResult.httpErr, summaryRes := none }).2 = false) ∧
    onToggleProduct sampleState 1 false happyToggleEnv =
      ({ sampleState with summary := { items := [], totalAmount := 0 } },
       [Request.removeItem 7 1, Request.getSummary 7]) :=
  ⟨(mutation_refresh_discipline sampleState happyToggleEnv
      { res := CallResult.httpErr, summaryRes := none } 1 7
      { items := [], totalAmount := 0 } rfl rfl rfl).1 rfl,
   (mutation_refresh_discipline sampleState happyToggleEnv
      { res := CallResult.httpErr, summaryRes := none } 1 7
      { items := [], totalAmount := 0 } rfl rfl rfl).2.2.2.2.2.2.2
      (by decide) rfl rfl rfl⟩

/-- Claim C2: `onPay` validates in a fixed short-circuiting order before
any network call — summary non-empty, then trimmed email against the
email shape, then trimmed address non-empty, then trimmed zip of exactly
five digits — each failure producing its own outcome with no request
issued and no state change; an empty cart is rejected whatever the fields
hold, a malformed email is rejected whatever the address and zip hold, and
only when all four validations pass does the flow proceed to the network
calls. -/
theorem onPay_validation_order (st : PageState) (env : PayEnv) (id : Nat)
    (hp : st.paying = false) :
    (st.summary.items = [] →
      onPay st env = (st, [], PayOutcome.emptyCart)) ∧
    (st.summary.items ≠ [] → emailShape (strTrim st.email) = false →
      onPay st env = (st, [], PayOutcome.badEmail)) ∧
    (st.summary.items ≠ [] → emailShape (strTrim st.email) = true →
      strTrim st.addr = "" →
      onPay st env = (st, [], PayOutcome.badAddr)) ∧
    (st.summary.items ≠ [] → emailShape (strTrim st.email) = true →
      strTrim st.addr ≠ "" → zipShape (strTrim st.zip) = false →
      onPay st env = (st, [], PayOutcome.badZip)) ∧
    (st.summary.items ≠ [] → emailShape (strTrim st.email) = true →
      strTrim st.addr ≠ "" → zipShape (strTrim st.zip) = true →
      st.cartId = some id →
      (onPay st env).2.1.head? =
        some (Request.postEmail id (strTrim st.email))) := by
  refine ⟨fun h => ?_, fun h1 h2 => ?_, fun h1 h2 h3 => ?_,
    fun h1 h2 h3 h4 => ?_, fun h1 h2 h3 h4 hc => ?_⟩
  · simp [onPay, hp, h]
  · simp [onPay, hp, h1, h2]
  · simp [onPay, String.isEmpty_iff, hp, h1, h2, h3]
  · simp [onPay, String.isEmpty_iff, hp, h1, h2, h3, h4]
  · cases hcust : env.customerRes <;>
      simp [onPay, ensureCartId, String.isEmpty_iff, hp, h1, h2, h3, h4,
        hc, hcust]

/-- Concrete instances of the C2 theorem: an empty cart is rejected even
with all fields valid; a non-empty cart with the email `bad-email` is
rejected with the email outcome even though address and zip are valid;
and with everything valid the first issued request is the email POST. -/
theorem onPay_validation_order_witness :
    onPay { sampleState with
        summary := { items := [], totalAmount := 0 } }
      { create := Except.ok 7, emailRes := CallResult.ok,
        dateRes := CallResult.ok, customerRes := CallResult.ok } =
      ({ sampleState with summary := { items := [], totalAmount := 0 } },
       [], PayOutcome.emptyCart) ∧
    onPay { sampleState with email := "bad-email" }
      { create := Except.ok 7, emailRes := CallResult.ok,
        dateRes := CallResult.ok, customerRes := CallResult.ok } =
      ({ sampleState with email := "bad-email" }, [],
       PayOutcome.badEmail) ∧
    (onPay sampleState
      { create := Except.ok 7, emailRes := CallResult.ok,
        dateRes := CallResult.ok, customerRes := CallResult.ok }).2.1.head? =
      some (Request.postEmail 7 (strTrim sampleState.email)) :=
  ⟨(onPay_validation_order
      { sampleState with summary := { items := [], totalAmount := 0 } }
      { create := Except.ok 7, emailRes := CallResult.ok,
        dateRes := CallResult.ok, customerRes := CallResult.ok } 7 rfl).1
      rfl,
   (onPay_validation_order { sampleState with email := "bad-email" }
      { create := Except.ok 7, emailRes := CallResult.ok,
        dateRes := CallResult.ok, customerRes := CallResult.ok } 7
      rfl).2.1 (by decide) (by decide),
   (onPay_validation_order sampleState
      { create := Except.ok 7, emailRes := CallResult.ok,
        dateRes := CallResult.ok, customerRes := CallResult.ok } 7
      rfl).2.2.2.2 (by decide) (by decide) (by decide) (by decide) rfl⟩

/-- Claim C6: in a checkout whose validations pass and whose cart identity
is held, a failing customer-info call is fatal — a non-ok response ends
the flow with the customer-failure outcome and a network error with the
flow-error outcome, in both cases returning the page state (cart identity,
summary, checkout fields) exactly as it was — while a successful
customer-info call, and only it, resets the cart identity (memory and
local storage) and clears the summary and every checkout field. -/
theorem customer_failure_fatal (st : PageState) (env : PayEnv) (id : Nat)
    (hp : st.paying = false) (hne : st.summary.items ≠ [])
    (he : emailShape (strTrim st.email) = true)
    (ha : strTrim st.addr ≠ "") (hz : zipShape (strTrim st.zip) = true)
    (hc : st.cartId = some id) :
    (env.customerRes = CallResult.httpErr →
      onPay st env =
        (st,
         [Request.postEmail id (strTrim st.email), Request.postDate id,
          Request.postCustomer id (strTrim st.email) (strTrim st.addr)
            (strTrim st.zip)],
         PayOutcome.customerFailed)) ∧
    (env.customerRes = CallResult.netErr →
      (onPay st env).1 = st ∧
      (onPay st env).2.2 = PayOutcome.flowError) ∧
    (env.customerRes = CallResult.ok →
      (onPay st env).1 = resetAfterPay st ∧
      (onPay st env).1.cartId = none ∧
      (onPay st env).1.storedCartId = none ∧
      (onPay st env).1.summary = { items := [], totalAmount := 0 } ∧
      (onPay st env).1.email = "" ∧
      (onPay st env).1.addr = "" ∧
      (onPay st env).1.zip = "" ∧
      (onPay st env).2.2 = PayOutcome.success) := by
  refine ⟨fun h => ?_, fun h => ?_, fun h => ?_⟩ <;>
    simp [onPay, ensureCartId, resetAfterPay, String.isEmpty_iff, hp, hne,
      he, ha, hz, hc, h]

/-- Concrete instances of the C6 theorem at the sample state: a non-ok
customer call leaves the state exactly as it was, and a successful
customer call resets it. -/
theorem customer_failure_fatal_witness :
    onPay sampleState
      { create := Except.ok 7, emailRes := CallResult.ok,
        dateRes := CallResult.ok, customerRes := CallResult.httpErr } =
      (sampleState,
       [Request.postEmail 7 (strTrim sampleState.email),
        Request.postDate 7,
        Request.postCustomer 7 (strTrim sampleState.email)
          (strTrim sampleState.addr) (strTrim sampleState.zip)],
       PayOutcome.customerFailed) ∧
    (onPay sampleState
      { create := Except.ok 7, emailRes := CallResult.ok,
        dateRes := CallResult.ok, customerRes := CallResult.ok }).1 =
      resetAfterPay sampleState :=
  ⟨(customer_failure_fatal sampleState
      { create := Except.ok 7, emailRes := CallResult.ok,
        dateRes := CallResult.ok, customerRes := CallResult.httpErr } 7
      rfl (by decide) (by decide) (by decide) (by decide) rfl).1 rfl,
   ((customer_failure_fatal sampleState
      { create := Except.ok 7, emailRes := CallResult.ok,
        dateRes := CallResult.ok, customerRes := CallResult.ok } 7
      rfl (by decide) (by decide) (by decide) (by decide) rfl).2.2 rfl).1⟩

end CoffeeCart
